import Mathlib

/-!
Shallow embedding of the MCP tool-invocation client in
`weather_gradio_app.py` (class `WeatherMCPClient`): JSON values,
the stdio request/response step, tool discovery and `call_tool`.
-/

/-- JSON values, as produced by `json.loads` on a response line.
Objects are association lists of string keys. -/
inductive Json where
  | null : Json
  | bool : Bool → Json
  | num : Int → Json
  | str : String → Json
  | arr : List Json → Json
  | obj : List (String × Json) → Json

/-- A parsed JSON object (a Python dict): list of key/value pairs. -/
abbrev JObj := List (String × Json)

/-- Key lookup in a JSON object, modelling Python `d[k]` / `k in d`. -/
def jlookup (o : JObj) (k : String) : Option Json :=
  match o with
  | [] => none
  | (k', v) :: rest => if k' = k then some v else jlookup rest k

/-- `MCPTool` dataclass of `weather_gradio_app.py`: name, description and
the `inputSchema` parameters. Fields hold raw JSON values, since Python
performs no runtime type check on them. -/
structure MCPTool where
  name : Json
  description : Json
  parameters : Json

/-!
## Transport layer (`send_request`, lines 162-185)

`send_request` writes one JSON line to the child process's stdin and, for
requests carrying an `id`, reads one line from its stdout and parses it
with `json.loads`. We model the environment's contribution — what the
write/read/parse steps do on this exchange — as a `RawResponse`; the
function then computes what the Python code returns or raises
(`Except.error e` models an exception whose `str` is `e`).
-/

/-- What the stdio exchange underneath one `send_request` call does. -/
inductive RawResponse where
  /-- `readline()` returned an empty string (falsy): no response line. -/
  | noLine : RawResponse
  /-- The response line parsed (`json.loads`) to the JSON object `v`. -/
  | goodLine : JObj → RawResponse
  /-- The response line failed to parse: `json.loads` raised an exception
  whose textual description is the given string. -/
  | badLine : String → RawResponse
  /-- The write or read itself raised (broken pipe, closed stream, ...)
  with the given textual description. -/
  | ioError : String → RawResponse

/-- `WeatherMCPClient.send_request` (lines 162-185). `serverStarted`
models `self.server_process` being set; `hasId` models
`request.get("id")` being truthy. Returns the parsed response object
(`{}` for notifications or a missing line), or `Except.error` when the
Python code raises. -/
def send_request (serverStarted : Bool) (hasId : Bool) (raw : RawResponse) :
    Except String JObj :=
  if serverStarted = false then Except.error "MCP server not started"
  else
    match raw with
    | RawResponse.ioError e => Except.error e
    | RawResponse.noLine => Except.ok []
    | RawResponse.goodLine v => if hasId then Except.ok v else Except.ok []
    | RawResponse.badLine e => if hasId then Except.error e else Except.ok []

/-!
## Tool discovery (`discover_tools`, lines 187-231)
-/

/-- `response["result"].get("tools", [])` (line 200): `.get` on a
non-object raises `AttributeError`. -/
def getTools (resultVal : Json) : Except String Json :=
  match resultVal with
  | Json.obj fields => Except.ok ((jlookup fields "tools").getD (Json.arr []))
  | _ => Except.error "AttributeError: object has no attribute get"

/-- Iterating `for tool_data in tools_data` (line 203) over a non-list
raises `TypeError`. -/
def asList (v : Json) : Except String (List Json) :=
  match v with
  | Json.arr xs => Except.ok xs
  | _ => Except.error "TypeError: object is not iterable"

/-- One loop body of discovery (lines 204-208): `tool_data["name"]`
raises on a non-object or a missing key; `description` and `inputSchema`
fall back to `""` and `{}` via `.get`. -/
def parseEntry (tool_data : Json) : Except String MCPTool :=
  match tool_data with
  | Json.obj fields =>
    match jlookup fields "name" with
    | some n =>
      Except.ok
        { name := n
          description := (jlookup fields "description").getD (Json.str "")
          parameters := (jlookup fields "inputSchema").getD (Json.obj []) }
    | none => Except.error "KeyError: name"
  | _ => Except.error "TypeError: object is not subscriptable"

/-- Python `v == "s"` for a JSON value: true only for that string; all
other comparisons are False without raising. -/
def isStrLit (v : Json) (s : String) : Bool :=
  match v with
  | Json.str t => t = s
  | _ => false

/-- Is the first character list a prefix of the second? -/
def charsPrefix : List Char → List Char → Bool
  | [], _ => true
  | _ :: _, [] => false
  | a :: as, b :: bs => a = b && charsPrefix as bs

/-- Does the character list contain the first list as a contiguous
sublist? -/
def charsContain (sub : List Char) : List Char → Bool
  | [] => charsPrefix sub []
  | c :: cs => charsPrefix sub (c :: cs) || charsContain sub cs

/-- Python substring test `sub in s` on strings (no raise). -/
def strContains (s sub : String) : Bool :=
  charsContain sub.data s.data

/-- The Python membership test `"properties" in tool.parameters`
(line 213): key membership on a dict, element equality on a list,
substring on a string; `TypeError` on a non-container (int, bool,
None). -/
def propertiesTest (p : Json) : Except String Bool :=
  match p with
  | Json.obj fields => Except.ok (jlookup fields "properties").isSome
  | Json.arr xs => Except.ok (xs.any (fun e => isStrLit e "properties"))
  | Json.str s => Except.ok (strContains s "properties")
  | _ => Except.error "TypeError: argument is not iterable"

/-- Does `prop_name in required` (line 218) evaluate without raising?
Membership on dict/list/str never raises for a string left operand;
int, bool and None raise `TypeError`. The test's value is only used for
a printed marker, so only raising matters. -/
def memberTestOk (required : Json) : Bool :=
  match required with
  | Json.obj _ => true
  | Json.arr _ => true
  | Json.str _ => true
  | _ => false

/-- Is the value a JSON object (a Python dict, the only `json.loads`
value with `.get`/`.items`)? -/
def isObj (v : Json) : Bool :=
  match v with
  | Json.obj _ => true
  | _ => false

/-- The parameter-print block of lines 212-221, which runs inside the
discovery loop after the tool has been appended: true iff it completes
without raising. `"properties" in tool.parameters` can raise
(`propertiesTest`); when it is true, `tool.parameters["properties"]`
raises on a list or string (string/list indices must be integers), and
on a dict the inner loop needs `props` to be a dict (`.items`, line
217), and — once it has at least one property — `required` to be a
container (line 218) and every property value to be a dict (`.get`,
lines 219-220). -/
def printBlockOk (p : Json) : Bool :=
  match propertiesTest p with
  | Except.error _ => false
  | Except.ok false => true
  | Except.ok true =>
    match p with
    | Json.obj fields =>
      match (jlookup fields "properties").getD Json.null with
      | Json.obj pf =>
        pf.isEmpty ||
          (memberTestOk ((jlookup fields "required").getD (Json.arr [])) &&
           pf.all (fun kv => isObj kv.2))
      | _ => false
    | _ => false

/-- The discovery loop (lines 203-221): each iteration parses the entry
(lines 204-208), appends the tool to `self.tools` (line 209), and then
runs the parameter-print block (lines 210-221), which can still raise —
after the append. The first raising step aborts the loop, leaving the
tools accumulated so far (including the current one when the raise
happens in the print block). Returns the final `self.tools` value and
whether the loop completed without raising. -/
def discoverLoop : List Json → List MCPTool → List MCPTool × Bool
  | [], acc => (acc, true)
  | td :: rest, acc =>
    match parseEntry td with
    | Except.error _ => (acc, false)
    | Except.ok t =>
      if printBlockOk t.parameters then discoverLoop rest (acc ++ [t])
      else (acc ++ [t], false)

/-- `WeatherMCPClient.discover_tools` (lines 187-231). Input: the prior
`self.tools` and the outcome of `send_request` on the `tools/list`
request. Output: the new `self.tools` and the returned boolean (the
method catches every exception and returns `False`, so it never
raises). -/
def discover_tools (tools0 : List MCPTool) (transport : Except String JObj) :
    List MCPTool × Bool :=
  match transport with
  | Except.error _ => (tools0, false)
  | Except.ok resp =>
    if resp.isEmpty then (tools0, false)
    else
      match jlookup resp "result" with
      | none => (tools0, false)
      | some resultVal =>
        match getTools resultVal with
        | Except.error _ => (tools0, false)
        | Except.ok toolsVal =>
          match asList toolsVal with
          | Except.error _ => ([], false)
          | Except.ok tools_data => discoverLoop tools_data []

/-!
## Tool invocation (`call_tool`, lines 233-273)
-/

/-- The guard-clause value of line 236: `{"error": "Not connected to MCP
server"}` — note: no `"success"` key. -/
def notConnectedResult : JObj := [("error", Json.str "Not connected to MCP server")]

/-- `{"success": False, "error": e}` (lines 258-261, 263-266, 270-273). -/
def failureResult (e : Json) : JObj := [("success", Json.bool false), ("error", e)]

/-- `{"success": True, "data": r}` (lines 253-256). -/
def successResult (r : Json) : JObj := [("success", Json.bool true), ("data", r)]

/-- The fixed fallback of lines 263-266. -/
def unknownFormatResult : JObj := failureResult (Json.str "Unknown response format")

/-- `response["error"]["message"]` (line 260): raises `TypeError` on a
non-object error value and `KeyError` when `message` is absent. -/
def errMessage (errVal : Json) : Except String Json :=
  match errVal with
  | Json.obj fields =>
    match jlookup fields "message" with
    | some m => Except.ok m
    | none => Except.error "KeyError: message"
  | _ => Except.error "TypeError: object is not subscriptable"

/-- The `try` body plus handlers of `call_tool` (lines 238-273), as a
function of the `send_request` outcome: result branch, error branch,
unknown-format fallback, and the catch-all that converts any raised
exception into a failure dict. -/
def callToolBody (transport : Except String JObj) : JObj :=
  match transport with
  | Except.error e => failureResult (Json.str e)
  | Except.ok resp =>
    if resp.isEmpty then unknownFormatResult
    else
      match jlookup resp "result" with
      | some r => successResult r
      | none =>
        match jlookup resp "error" with
        | some errVal =>
          match errMessage errVal with
          | Except.ok m => failureResult m
          | Except.error e => failureResult (Json.str e)
        | none => unknownFormatResult

/-- `WeatherMCPClient.call_tool` (lines 233-273). Returns the result
dict together with a flag recording whether the transport was touched
(the guard clause of lines 235-236 returns before any request is built
or sent). -/
def call_tool (connected serverStarted : Bool) (raw : RawResponse) : JObj × Bool :=
  if connected = false then (notConnectedResult, false)
  else (callToolBody (send_request serverStarted true raw), true)

/-!
## Session handshake (`initialize_mcp_session`, lines 121-160)
-/

/-- The mutable client state the handshake touches: `self.connected` and
`self.tools`. -/
structure SessionState where
  connected : Bool
  tools : List MCPTool

/-- The environment of one handshake attempt: whether the server process
is up, and the stdio outcome of each of the three exchanges (initialize
request, initialized notification, tools/list request). -/
structure HandshakeEnv where
  serverStarted : Bool
  initRaw : RawResponse
  notifRaw : RawResponse
  toolsRaw : RawResponse

/-- `WeatherMCPClient.initialize_mcp_session` (lines 121-160): sends the
initialize request, then the initialized notification (no id), then runs
`discover_tools`, and only then sets `self.connected = True`. The
`except` clause re-raises, leaving state untouched; the returned flag
records whether the method raised. `discover_tools` swallows its own
exceptions, so only the first two exchanges can raise here. -/
def initMcpSession (s : SessionState) (env : HandshakeEnv) :
    SessionState × Bool :=
  match send_request env.serverStarted true env.initRaw with
  | Except.error _ => (s, true)
  | Except.ok _ =>
    match send_request env.serverStarted false env.notifRaw with
    | Except.error _ => (s, true)
    | Except.ok _ =>
      let d := discover_tools s.tools (send_request env.serverStarted true env.toolsRaw)
      ({ connected := true, tools := d.1 }, false)

/-!
## Spec-side definitions (for refinement claims)
-/

/-- Does a discovery entry carry the required `name` key? -/
def hasName (e : Json) : Bool :=
  match e with
  | Json.obj fields => (jlookup fields "name").isSome
  | _ => false

/-- Modelled from the spec (§4.3): the ToolDescriptor the spec says each
discovery entry yields — `name` read from the entry, `description`
defaulting to the empty string, `parameterSchema` defaulting to an empty
structure when absent. -/
def specDescriptorOfEntry (e : Json) : MCPTool :=
  match e with
  | Json.obj fields =>
    { name := (jlookup fields "name").getD Json.null
      description := (jlookup fields "description").getD (Json.str "")
      parameters := (jlookup fields "inputSchema").getD (Json.obj []) }
  | _ => { name := Json.null, description := Json.str "", parameters := Json.obj [] }

/-- An entry whose whole loop iteration (lines 204-221) completes
without raising: an object carrying the required `name`, whose
(defaulted) `inputSchema` lets the parameter-print block run to
completion. -/
def entryOk (e : Json) : Bool :=
  match e with
  | Json.obj fields =>
    (jlookup fields "name").isSome &&
      printBlockOk ((jlookup fields "inputSchema").getD (Json.obj []))
  | _ => false

/-- A well-formed `tools/list` response object carrying the given
entries. -/
def toolsListResponse (entries : List Json) : JObj :=
  [("jsonrpc", Json.str "2.0"), ("id", Json.str "1"),
   ("result", Json.obj [("tools", Json.arr entries)])]

/-- Did an `Except`-modelled step complete without raising? -/
def isOkB {α : Type} (x : Except String α) : Bool :=
  match x with
  | Except.ok _ => true
  | Except.error _ => false

/-!
## Helper lemmas
-/

theorem parseEntry_of_hasName : ∀ e : Json, hasName e = true →
    parseEntry e = Except.ok (specDescriptorOfEntry e) := by
  intro e h
  cases e <;> simp [hasName] at h
  next fields =>
    obtain ⟨n, hn⟩ := Option.isSome_iff_exists.mp h
    simp [parseEntry, specDescriptorOfEntry, hn]

theorem parseEntry_of_not_hasName : ∀ e : Json, hasName e = false →
    ∃ msg, parseEntry e = Except.error msg := by
  intro e h
  cases e with
  | null => exact ⟨_, rfl⟩
  | bool b => exact ⟨_, rfl⟩
  | num n => exact ⟨_, rfl⟩
  | str s => exact ⟨_, rfl⟩
  | arr xs => exact ⟨_, rfl⟩
  | obj fields =>
    cases hn : jlookup fields "name" with
    | none => exact ⟨"KeyError: name", by simp [parseEntry, hn]⟩
    | some n => simp [hasName, hn] at h

theorem entryOk_split : ∀ e : Json, entryOk e = true →
    hasName e = true ∧ printBlockOk (specDescriptorOfEntry e).parameters = true := by
  intro e h
  cases e <;> simp [entryOk] at h
  next fields =>
    obtain ⟨h1, h2⟩ := h
    exact ⟨by simp [hasName, h1], by simp [specDescriptorOfEntry, h2]⟩

theorem discoverLoop_all_ok : ∀ (entries : List Json) (acc : List MCPTool),
    (∀ e ∈ entries, entryOk e = true) →
    discoverLoop entries acc = (acc ++ entries.map specDescriptorOfEntry, true) := by
  intro entries
  induction entries with
  | nil => intro acc _; simp [discoverLoop]
  | cons e rest ih =>
    intro acc h
    obtain ⟨hn, hp⟩ := entryOk_split e (h e (by simp))
    have hr : ∀ x ∈ rest, entryOk x = true := fun x hx => h x (by simp [hx])
    simp [discoverLoop, parseEntry_of_hasName e hn, hp,
      ih (acc ++ [specDescriptorOfEntry e]) hr]

theorem discoverLoop_stops : ∀ (pre : List Json) (bad : Json) (rest : List Json)
    (acc : List MCPTool) (msg : String),
    (∀ e ∈ pre, entryOk e = true) → parseEntry bad = Except.error msg →
    discoverLoop (pre ++ bad :: rest) acc = (acc ++ pre.map specDescriptorOfEntry, false) := by
  intro pre
  induction pre with
  | nil => intro bad rest acc msg _ hbad; simp [discoverLoop, hbad]
  | cons e p ih =>
    intro bad rest acc msg h hbad
    obtain ⟨hn, hp⟩ := entryOk_split e (h e (by simp))
    have hpre : ∀ x ∈ p, entryOk x = true := fun x hx => h x (by simp [hx])
    simp [discoverLoop, parseEntry_of_hasName e hn, hp,
      ih bad rest (acc ++ [specDescriptorOfEntry e]) msg hpre hbad]

theorem discoverLoop_stops_late : ∀ (pre : List Json) (bad : Json)
    (rest : List Json) (acc : List MCPTool),
    (∀ e ∈ pre, entryOk e = true) → hasName bad = true →
    printBlockOk (specDescriptorOfEntry bad).parameters = false →
    discoverLoop (pre ++ bad :: rest) acc =
      (acc ++ pre.map specDescriptorOfEntry ++ [specDescriptorOfEntry bad], false) := by
  intro pre
  induction pre with
  | nil =>
    intro bad rest acc _ hn hp
    simp [discoverLoop, parseEntry_of_hasName bad hn, hp]
  | cons e p ih =>
    intro bad rest acc h hn hp
    obtain ⟨hen, hep⟩ := entryOk_split e (h e (by simp))
    have hpre : ∀ x ∈ p, entryOk x = true := fun x hx => h x (by simp [hx])
    simp [discoverLoop, parseEntry_of_hasName e hen, hep,
      ih bad rest (acc ++ [specDescriptorOfEntry e]) hpre hn hp]

theorem discover_tools_ok (tools0 : List MCPTool) (entries : List Json)
    (h : ∀ e ∈ entries, entryOk e = true) :
    discover_tools tools0 (Except.ok (toolsListResponse entries)) =
      (entries.map specDescriptorOfEntry, true) := by
  simp [discover_tools, toolsListResponse, jlookup, getTools, asList,
    discoverLoop_all_ok entries [] h]

/-!
## Claim theorems
-/

/-- C2 counterexample: the initialize and initialized exchanges succeed
but the tools/list exchange raises (stream closed): an exception occurs
during step 3, discovery reports failure, yet `connected` becomes true. -/
theorem C2_counterexample :
    send_request true true (RawResponse.ioError "stream closed") =
        Except.error "stream closed" ∧
    (discover_tools [] (Except.error "stream closed")).2 = false ∧
    (initMcpSession ⟨false, []⟩
        ⟨true, RawResponse.goodLine [("result", Json.obj [])], RawResponse.noLine,
          RawResponse.ioError "stream closed"⟩).1.connected = true :=
  ⟨rfl, rfl, rfl⟩

/-- C2 (amended): starting not-connected, the handshake sets `connected`
iff the initialize request and the initialized notification complete
without raising; tool-discovery failures and exceptions are absorbed by
`discover_tools` and do not gate `connected`; and whenever the handshake
itself raises, `connected` stays false. -/
theorem C2_connected_flag (s : SessionState) (env : HandshakeEnv)
    (h : s.connected = false) :
    ((initMcpSession s env).1.connected = true ↔
      (isOkB (send_request env.serverStarted true env.initRaw) = true ∧
       isOkB (send_request env.serverStarted false env.notifRaw) = true)) ∧
    ((initMcpSession s env).2 = true →
      (initMcpSession s env).1.connected = false) := by
  cases h1 : send_request env.serverStarted true env.initRaw with
  | error e => simp [initMcpSession, h1, isOkB, h]
  | ok v =>
    cases h2 : send_request env.serverStarted false env.notifRaw with
    | error e => simp [initMcpSession, h1, h2, isOkB, h]
    | ok w => simp [initMcpSession, h1, h2, isOkB]

/-- Witness for C2_connected_flag: a fully successful handshake. -/
theorem C2_witness :
    ((⟨false, []⟩ : SessionState).connected = false) ∧
    (((initMcpSession ⟨false, []⟩
        ⟨true, RawResponse.goodLine [("result", Json.obj [])], RawResponse.noLine,
          RawResponse.goodLine (toolsListResponse [])⟩).1.connected = true ↔
      (isOkB (send_request true true
          (RawResponse.goodLine [("result", Json.obj [])])) = true ∧
       isOkB (send_request true false RawResponse.noLine) = true)) ∧
     ((initMcpSession ⟨false, []⟩
        ⟨true, RawResponse.goodLine [("result", Json.obj [])], RawResponse.noLine,
          RawResponse.goodLine (toolsListResponse [])⟩).2 = true →
      (initMcpSession ⟨false, []⟩
        ⟨true, RawResponse.goodLine [("result", Json.obj [])], RawResponse.noLine,
          RawResponse.goodLine (toolsListResponse [])⟩).1.connected = false)) :=
  ⟨rfl, C2_connected_flag ⟨false, []⟩
    ⟨true, RawResponse.goodLine [("result", Json.obj [])], RawResponse.noLine,
      RawResponse.goodLine (toolsListResponse [])⟩ rfl⟩

/-- C3: a tools/call Response carrying a `result` field makes `call_tool`
return the success dict whose `data` payload is exactly that result
value, unmodified. -/
theorem C3_result_roundtrip (resp : JObj) (r : Json)
    (h : jlookup resp "result" = some r) :
    (call_tool true true (RawResponse.goodLine resp)).1 = successResult r := by
  have hne : resp.isEmpty = false := by
    cases resp with
    | nil => simp [jlookup] at h
    | cons a l => rfl
  simp [call_tool, send_request, callToolBody, hne, h]

/-- Witness for C3_result_roundtrip. -/
theorem C3_witness :
    jlookup [("result", Json.str "sunny")] "result" = some (Json.str "sunny") ∧
    (call_tool true true (RawResponse.goodLine
        [("result", Json.str "sunny")])).1 = successResult (Json.str "sunny") :=
  ⟨rfl, C3_result_roundtrip [("result", Json.str "sunny")] (Json.str "sunny") rfl⟩

/-- C4: a Response carrying an `error` object with message M and no
`result` field makes `call_tool` return the failure dict whose message
is exactly M. -/
theorem C4_error_message (resp : JObj) (ef : JObj) (m : String)
    (hr : jlookup resp "result" = none)
    (he : jlookup resp "error" = some (Json.obj ef))
    (hm : jlookup ef "message" = some (Json.str m)) :
    (call_tool true true (RawResponse.goodLine resp)).1 =
      failureResult (Json.str m) := by
  have hne : resp.isEmpty = false := by
    cases resp with
    | nil => simp [jlookup] at he
    | cons a l => rfl
  simp [call_tool, send_request, callToolBody, hne, hr, he, errMessage, hm]

/-- Witness for C4_error_message. -/
theorem C4_witness :
    jlookup [("error", Json.obj [("message", Json.str "boom")])] "result" = none ∧
    jlookup [("error", Json.obj [("message", Json.str "boom")])] "error" =
      some (Json.obj [("message", Json.str "boom")]) ∧
    jlookup [("message", Json.str "boom")] "message" = some (Json.str "boom") ∧
    (call_tool true true (RawResponse.goodLine
        [("error", Json.obj [("message", Json.str "boom")])])).1 =
      failureResult (Json.str "boom") :=
  ⟨rfl, rfl, rfl,
   C4_error_message [("error", Json.obj [("message", Json.str "boom")])]
     [("message", Json.str "boom")] "boom" rfl rfl rfl⟩

/-- C5: any transport-level exception raised under `call_tool` is
absorbed into a failure dict carrying the exception's textual
description; `call_tool` itself is total and never raises. -/
theorem C5_exception_absorbed (st : Bool) (raw : RawResponse) (e : String)
    (h : send_request st true raw = Except.error e) :
    (call_tool true st raw).1 = failureResult (Json.str e) := by
  simp [call_tool, h, callToolBody]

/-- Witness for C5_exception_absorbed: a broken-pipe write failure. -/
theorem C5_witness :
    send_request true true (RawResponse.ioError "Broken pipe") =
      Except.error "Broken pipe" ∧
    (call_tool true true (RawResponse.ioError "Broken pipe")).1 =
      failureResult (Json.str "Broken pipe") :=
  ⟨rfl, C5_exception_absorbed true (RawResponse.ioError "Broken pipe") "Broken pipe" rfl⟩

/-- C6 counterexample: starting from a one-tool catalog, a discovery
response whose second entry lacks `name` fails the whole call and leaves
the catalog holding exactly the first freshly parsed descriptor —
neither the prior catalog nor a full replacement: a partially updated
state. -/
theorem C6_counterexample :
    discover_tools [⟨Json.str "Old", Json.str "", Json.obj []⟩]
        (Except.ok (toolsListResponse
          [Json.obj [("name", Json.str "GetForecast")], Json.obj []])) =
      ([⟨Json.str "GetForecast", Json.str "", Json.obj []⟩], false) ∧
    ([(⟨Json.str "GetForecast", Json.str "", Json.obj []⟩ : MCPTool)] ≠
      [⟨Json.str "Old", Json.str "", Json.obj []⟩]) := by
  constructor
  · rfl
  · intro hcontra
    injection hcontra with h1 h2
    have h3 : Json.str "GetForecast" = Json.str "Old" := congrArg MCPTool.name h1
    injection h3 with h4
    exact absurd h4 (by decide)

/-- C6 (amended): the prior catalog is discarded at the start of
parsing, so a failing entry leaves a partially updated catalog. On a
discovery response whose tools list is a raise-free prefix followed by
a failing entry, the whole call fails (returns false) and the catalog
is left holding exactly the descriptors appended before the raising
point: for an entry lacking `name` the raise precedes its append, so
the catalog holds the prefix's descriptors; for a named entry whose
parameter-print block raises (e.g. a non-container `inputSchema`) the
tool is appended first, so its own descriptor is kept as well. -/
theorem C6_partial_update (tools0 : List MCPTool) (pre : List Json)
    (bad bad2 : Json) (rest : List Json)
    (h : ∀ e ∈ pre, entryOk e = true) (hbad : hasName bad = false)
    (hb2n : hasName bad2 = true)
    (hb2p : printBlockOk (specDescriptorOfEntry bad2).parameters = false) :
    discover_tools tools0 (Except.ok (toolsListResponse (pre ++ bad :: rest))) =
      (pre.map specDescriptorOfEntry, false) ∧
    discover_tools tools0 (Except.ok (toolsListResponse (pre ++ bad2 :: rest))) =
      (pre.map specDescriptorOfEntry ++ [specDescriptorOfEntry bad2], false) := by
  constructor
  · obtain ⟨msg, hmsg⟩ := parseEntry_of_not_hasName bad hbad
    simp [discover_tools, toolsListResponse, jlookup, getTools, asList,
      discoverLoop_stops pre bad rest [] msg h hmsg]
  · simp [discover_tools, toolsListResponse, jlookup, getTools, asList,
      discoverLoop_stops_late pre bad2 rest [] h hb2n hb2p]

/-- Witness for C6_partial_update: one good entry, then (first run) an
entry lacking `name`, and (second run) a named entry whose
`inputSchema` is the integer 5, which makes line 213 raise after the
append. -/
theorem C6_witness :
    (∀ e ∈ [Json.obj [("name", Json.str "A")]], entryOk e = true) ∧
    hasName (Json.obj []) = false ∧
    hasName (Json.obj [("name", Json.str "x"), ("inputSchema", Json.num 5)]) = true ∧
    printBlockOk (specDescriptorOfEntry
        (Json.obj [("name", Json.str "x"), ("inputSchema", Json.num 5)])).parameters = false ∧
    (discover_tools [] (Except.ok (toolsListResponse
        ([Json.obj [("name", Json.str "A")]] ++ Json.obj [] :: []))) =
      ([Json.obj [("name", Json.str "A")]].map specDescriptorOfEntry, false) ∧
     discover_tools [] (Except.ok (toolsListResponse
        ([Json.obj [("name", Json.str "A")]] ++
          Json.obj [("name", Json.str "x"), ("inputSchema", Json.num 5)] :: []))) =
      ([Json.obj [("name", Json.str "A")]].map specDescriptorOfEntry ++
        [specDescriptorOfEntry
          (Json.obj [("name", Json.str "x"), ("inputSchema", Json.num 5)])], false)) :=
  ⟨by intro e he; rw [List.mem_singleton] at he; subst he; rfl, rfl, rfl, rfl,
   C6_partial_update [] [Json.obj [("name", Json.str "A")]] (Json.obj [])
     (Json.obj [("name", Json.str "x"), ("inputSchema", Json.num 5)]) []
     (by intro e he; rw [List.mem_singleton] at he; subst he; rfl) rfl rfl rfl⟩

/-- C7: calling while not connected returns the fixed not-connected
failure dict, for any tool/arguments/transport situation, and the
transport-activity flag is false: the guard returns before any request
is built or sent. -/
theorem C7_not_connected_guard (st : Bool) (raw : RawResponse) :
    call_tool false st raw = (notConnectedResult, false) := rfl

/-- C8 counterexample: a malformed response line makes `json.loads`
raise; `call_tool` then returns a failure carrying the decode
exception's text — not the generic "Unknown response format" value the
claim requires for a malformed line. -/
theorem C8_counterexample :
    (call_tool true true
        (RawResponse.badLine "Expecting value: line 1 column 1 (char 0)")).1 =
      failureResult (Json.str "Expecting value: line 1 column 1 (char 0)") ∧
    failureResult (Json.str "Expecting value: line 1 column 1 (char 0)") ≠
      unknownFormatResult := by
  constructor
  · rfl
  · intro hcontra
    injection hcontra with h1 h2
    injection h2 with h3 h4
    injection h3 with h5 h6
    injection h6 with h7
    exact absurd h7 (by decide)

/-- C8 (amended): a Response body that parses to an object carrying
neither `result` nor `error` — and likewise the empty-line case, where
no body arrives at all — yields the generic unknown-format failure;
an unparseable line is instead reported through the decode exception's
text (see the counterexample). -/
theorem C8_unknown_format (resp : JObj)
    (hr : jlookup resp "result" = none) (he : jlookup resp "error" = none) :
    (call_tool true true (RawResponse.goodLine resp)).1 = unknownFormatResult ∧
    (call_tool true true RawResponse.noLine).1 = unknownFormatResult := by
  constructor
  · cases resp with
    | nil => rfl
    | cons a l => simp [call_tool, send_request, callToolBody, hr, he]
  · rfl

/-- Witness for C8_unknown_format. -/
theorem C8_witness :
    jlookup [("jsonrpc", Json.str "2.0")] "result" = none ∧
    jlookup [("jsonrpc", Json.str "2.0")] "error" = none ∧
    ((call_tool true true (RawResponse.goodLine
        [("jsonrpc", Json.str "2.0")])).1 = unknownFormatResult ∧
     (call_tool true true RawResponse.noLine).1 = unknownFormatResult) :=
  ⟨rfl, rfl, C8_unknown_format [("jsonrpc", Json.str "2.0")] rfl rfl⟩

/-- C9: for a valid tools/list Response — every entry an object with
the required `name` and a schema on which the per-entry diagnostic
block (lines 212-221) does not raise, which is the case for every
JSON-Schema-shaped `inputSchema` — discovery yields one descriptor per
entry, in entry order, equal to the spec-side mapping
`specDescriptorOfEntry` (description defaulting to the empty string and
the parameter schema to an empty structure when absent). -/
theorem C9_catalog_refines_spec (tools0 : List MCPTool) (entries : List Json)
    (h : ∀ e ∈ entries, entryOk e = true) :
    discover_tools tools0 (Except.ok (toolsListResponse entries)) =
      (entries.map specDescriptorOfEntry, true) :=
  discover_tools_ok tools0 entries h

/-- Witness for C9_catalog_refines_spec: two tools, one with a
description and both without a schema. -/
theorem C9_witness :
    (∀ e ∈ [Json.obj [("name", Json.str "get_forecast")],
            Json.obj [("name", Json.str "get_alerts"),
                      ("description", Json.str "US alerts")]],
        entryOk e = true) ∧
    discover_tools [] (Except.ok (toolsListResponse
        [Json.obj [("name", Json.str "get_forecast")],
         Json.obj [("name", Json.str "get_alerts"),
                   ("description", Json.str "US alerts")]])) =
      ([Json.obj [("name", Json.str "get_forecast")],
        Json.obj [("name", Json.str "get_alerts"),
                  ("description", Json.str "US alerts")]].map specDescriptorOfEntry,
       true) :=
  ⟨by
      intro e he
      rw [List.mem_cons, List.mem_singleton] at he
      rcases he with h | h <;> subst h <;> rfl,
   C9_catalog_refines_spec []
     [Json.obj [("name", Json.str "get_forecast")],
      Json.obj [("name", Json.str "get_alerts"),
                ("description", Json.str "US alerts")]]
     (by
       intro e he
       rw [List.mem_cons, List.mem_singleton] at he
       rcases he with h | h <;> subst h <;> rfl)⟩

theorem callToolBody_success_key : ∀ t : Except String JObj,
    ∃ b, jlookup (callToolBody t) "success" = some (Json.bool b) := by
  intro t
  cases t with
  | error e => exact ⟨false, rfl⟩
  | ok resp =>
    cases hemp : resp.isEmpty with
    | true =>
      have hbody : callToolBody (Except.ok resp) = unknownFormatResult := by
        simp [callToolBody, hemp]
      exact ⟨false, by rw [hbody]; rfl⟩
    | false =>
      cases hr : jlookup resp "result" with
      | some r =>
        have hbody : callToolBody (Except.ok resp) = successResult r := by
          simp [callToolBody, hemp, hr]
        exact ⟨true, by rw [hbody]; rfl⟩
      | none =>
        cases he : jlookup resp "error" with
        | none =>
          have hbody : callToolBody (Except.ok resp) = unknownFormatResult := by
            simp [callToolBody, hemp, hr, he]
          exact ⟨false, by rw [hbody]; rfl⟩
        | some ev =>
          cases hm : errMessage ev with
          | ok m =>
            have hbody : callToolBody (Except.ok resp) = failureResult m := by
              simp [callToolBody, hemp, hr, he, hm]
            exact ⟨false, by rw [hbody]; rfl⟩
          | error e2 =>
            have hbody : callToolBody (Except.ok resp) =
                failureResult (Json.str e2) := by
              simp [callToolBody, hemp, hr, he, hm]
            exact ⟨false, by rw [hbody]; rfl⟩

/-- C10: the not-connected guard value of `call_tool` carries no
`success` key at all, while every other outcome — success, remote
error, unknown format, absorbed exception — carries an explicit boolean
under `success`. -/
theorem C10_guard_shape_mismatch (st st2 : Bool) (raw raw2 : RawResponse) :
    jlookup (call_tool false st raw).1 "success" = none ∧
    ∃ b, jlookup (call_tool true st2 raw2).1 "success" = some (Json.bool b) := by
  constructor
  · rfl
  · simpa [call_tool] using callToolBody_success_key (send_request st2 true raw2)
